import Mathlib

/-!
Shallow embedding of the guppy query-translation layer (the `ES` class of
`src/server/es/index.js`, here `src/unnamed/part_001`) and of the tier-access
middleware (`src/server/middlewares/tierAccessMiddleware/index.js`).

JavaScript asynchronous calls are modelled by explicit oracle functions
(`engine`) passed as arguments; the sequence of engine calls a method makes is
returned alongside its result, so that claims of the form "the engine is never
called" become statements about that call list.  Thrown errors are modelled
with `Except`.
-/

/-- Errors thrown by the layer: `CodedError(code, msg)` from `utils/error`,
`UserInputError(msg)` from apollo-server, and plain `new Error(msg)`. -/
inductive GuppyError
  | codedError (code : Nat) (msg : String)
  | userInputError (msg : String)
  | jsError (msg : String)
deriving DecidableEq, Repr

/-- One entry of `config.indices`: an index descriptor `{ index, type }`. -/
structure IndexConfig where
  index : String
  type : String
deriving DecidableEq, Repr

/-- Association-list lookup keyed by strings, modelling JavaScript property
access `obj[key]` on the plain objects this layer builds (each key is
assigned at most once in the source, so first-match lookup is faithful). -/
def alookup {β : Type} : List (String × β) → String → Option β
  | [], _ => none
  | (k, v) :: rest, key => if k = key then some v else alookup rest key

/-- `Object.keys` on the association-list model of a plain object. -/
def objKeys {β : Type} (m : List (String × β)) : List String := m.map (·.1)

/-- In-memory state of the `ES` instance after `initialize()`:
`config.indices`, `this.fieldTypes` (index → field → type) and
`this.arrayFields` (index → array-typed fields). -/
structure ESState where
  indices : List IndexConfig
  fieldTypes : List (String × List (String × String))
  arrayFields : List (String × List String)
deriving Repr

/-- The query body `filterData` assembles and `query` dispatches.  `query`
strips keys whose value is `undefined`/`null` before sending, so an absent
key and a key set to `undefined` are observationally the same; both are
`none` here.  `from` is always a number (`offset` defaults to `0`), so it is
a plain field.  `φ` is the native filter clause produced by `getFilterObj`
and `σ` the native sort clause produced by `getESSortBody` (their sources,
`filter.js` and `sort.js`, are outside the embedded core, so they stay
abstract). -/
structure ESQueryBody (φ σ : Type) where
  fromOffset : Int
  query : Option φ
  sort : Option σ
  size : Option Int
  source : Option (List String)
deriving DecidableEq, Repr

/-- `_source: [...]` hit of a search response. -/
structure SearchHit (α : Type) where
  source : α
deriving DecidableEq, Repr

/-- `hits` object of a search response: `{ total, hits }`. -/
structure SearchHits (α : Type) where
  total : Nat
  hits : List (SearchHit α)
deriving DecidableEq, Repr

/-- A search response body, as far as this layer reads it. -/
structure SearchResp (α : Type) where
  hits : SearchHits α
deriving DecidableEq, Repr

/-- `ES.query`: dispatches the (already stripped) body to the search engine;
on rejection wraps the upstream message with `throw new Error(err.message)`. -/
def ES.query {φ σ α : Type} (engine : ESQueryBody φ σ → Except String (SearchResp α))
    (body : ESQueryBody φ σ) : Except GuppyError (SearchResp α) :=
  match engine body with
  | .ok resp => .ok resp
  | .error msg => .error (.jsError msg)

/-- The body built by `ES.filterData`: `{ from: offset }` with `offset`
defaulting to `0`, `query` only when a filter is given, `sort` always set to
the translated sort (stripped when the translator yields `undefined`),
`size` only when given, `_source` only when `fields` is non-empty. -/
def buildFilterDataBody {Filter SortSpec φ σ : Type}
    (gfo : String → String → Filter → φ) (gsb : Option SortSpec → String → Option σ)
    (esIndex esType : String) (filter : Option Filter) (fields : List String)
    (sort : Option SortSpec) (offset : Option Int) (size : Option Int) :
    ESQueryBody φ σ :=
  { fromOffset := offset.getD 0
    query := filter.map (gfo esIndex esType)
    sort := gsb sort esIndex
    size := size
    source := if fields.length > 0 then some fields else none }

/-- `ES.filterData`: builds the query body and issues exactly one `query`
call.  The second component is the list of bodies dispatched to the engine. -/
def ES.filterData {Filter SortSpec φ σ α : Type}
    (engine : ESQueryBody φ σ → Except String (SearchResp α))
    (gfo : String → String → Filter → φ) (gsb : Option SortSpec → String → Option σ)
    (esIndex esType : String) (filter : Option Filter) (fields : List String)
    (sort : Option SortSpec) (offset : Option Int) (size : Option Int) :
    Except GuppyError (SearchResp α) × List (ESQueryBody φ σ) :=
  let body := buildFilterDataBody gfo gsb esIndex esType filter fields sort offset size
  (ES.query engine body, [body])

/-- `ES.getCount`: calls `filterData` with `fields: []` (and no sort, offset
or size) and reads `hits.total` from the response. -/
def ES.getCount {Filter SortSpec φ σ α : Type}
    (engine : ESQueryBody φ σ → Except String (SearchResp α))
    (gfo : String → String → Filter → φ) (gsb : Option SortSpec → String → Option σ)
    (esIndex esType : String) (filter : Option Filter) :
    Except GuppyError Nat × List (ESQueryBody φ σ) :=
  let r := ES.filterData engine gfo gsb esIndex esType filter [] none none none
  (r.1.map (fun resp => resp.hits.total), r.2)

/-- The guard of `ES.getData`:
`typeof size !== 'undefined' && offset + size > SCROLL_PAGE_SIZE`.
When `size` is `undefined` the conjunction is short-circuited to false; when
`offset` is `undefined`, `offset + size` is `NaN` and `NaN > x` is false. -/
def exceedsPageSize (pageSize : Int) (offset size : Option Int) : Bool :=
  match size, offset with
  | some s, some o => o + s > pageSize
  | some _, none => false
  | none, _ => false

/-- The `UserInputError` message of `ES.getData` (a template literal spanning
three lines in the source). -/
def largeQueryMsg (pageSize offsetVal sizeVal : Int) : String :=
  "Large graphql query forbidden for offset + size > " ++ toString pageSize ++ ", \n" ++
  "      offset = " ++ toString offsetVal ++ " and size = " ++ toString sizeVal ++ ",\n" ++
  "      please use download endpoint for large data queries instead."

/-- `ES.getData`: rejects with `UserInputError` when the page-size guard
fires, otherwise issues one `filterData` search and maps `_source` out of the
hits.  `pageSize` is `SCROLL_PAGE_SIZE` from `const.js` (its value is not in
the embedded core, so it is a parameter).  The second component is the list
of bodies dispatched to the engine. -/
def ES.getData {Filter SortSpec φ σ α : Type}
    (engine : ESQueryBody φ σ → Except String (SearchResp α))
    (gfo : String → String → Filter → φ) (gsb : Option SortSpec → String → Option σ)
    (pageSize : Int) (esIndex esType : String) (fields : List String)
    (filter : Option Filter) (sort : Option SortSpec)
    (offset size : Option Int) :
    Except GuppyError (List α) × List (ESQueryBody φ σ) :=
  if exceedsPageSize pageSize offset size then
    (.error (.userInputError (largeQueryMsg pageSize (offset.getD 0) (size.getD 0))), [])
  else
    let r := ES.filterData engine gfo gsb esIndex esType filter fields sort offset size
    (r.1.map (fun resp => resp.hits.hits.map (·.source)), r.2)

/-- `ES._getMappingsForAllIndices`.  `fetch` is `_getESFieldsTypes` (one
engine mapping call per configured index); `Promise.all` rejects as soon as
any fetch rejects, modelled as the leftmost error of `mapM`.  The guard in
the source is `!this.config.indices || this.config.indices === 0`: in
JavaScript an array — even an empty one — is truthy, and strict equality of
an array with the number `0` is false, so the guard fires only when
`config.indices` is missing (`undefined`/`null`), modelled as `none`. -/
def ES.getMappingsForAllIndices
    (fetch : String → String → Except String (List (String × String)))
    (cfgIndices : Option (List IndexConfig)) :
    Except GuppyError (List (String × List (String × String))) :=
  match cfgIndices with
  | none =>
    .error (.jsError "[ES.initialize] Error when initializing: empty \"config.indices\" block")
  | some l =>
    match l.mapM (fun cfg => (fetch cfg.index cfg.type).map (fun ft => (cfg.index, ft))) with
    | .ok res => .ok res
    | .error e => .error (.jsError e)

/-- The per-index record `getESFields` builds: `{ index, type, fields }`. -/
structure ESFieldsInfo where
  index : String
  type : String
  fields : List String
deriving DecidableEq, Repr

/-- `ES.getESFields` applied to a (defined) index name: builds one record per
configured index, then returns `res[esIndex]` — which is `undefined` (`none`)
when `esIndex` is not a configured index; no error is thrown on that path.
(After a successful `initialize`, `fieldTypes` holds an entry for every
configured index; a missing entry is read as the empty mapping here.) -/
def ES.getESFields (st : ESState) (esIndex : String) : Option ESFieldsInfo :=
  let res := st.indices.map (fun cfg =>
    (cfg.index,
      { index := cfg.index, type := cfg.type,
        fields := objKeys ((alookup st.fieldTypes cfg.index).getD []) : ESFieldsInfo }))
  alookup res esIndex

/-- The value of a JavaScript expression `a && a.includes(f)` where `a` may
be `undefined`: either `undefined` itself or a boolean. -/
inductive JsBoolOrUndef
  | undef
  | bool (b : Bool)
deriving DecidableEq, Repr

/-- JavaScript truthiness of a `JsBoolOrUndef` value. -/
def JsBoolOrUndef.truthy : JsBoolOrUndef → Bool
  | .undef => false
  | .bool b => b

/-- `ES.isArrayField`:
`this.arrayFields[esIndex] && this.arrayFields[esIndex].includes(field)`.
When `arrayFields` has no entry for `esIndex`, the left operand is
`undefined` and `&&` returns it unchanged; otherwise the result is the
boolean membership test (an empty array is truthy in JavaScript). -/
def ES.isArrayField (st : ESState) (esIndex field : String) : JsBoolOrUndef :=
  match alookup st.arrayFields esIndex with
  | none => .undef
  | some fs => .bool (fs.contains field)

/-- One batch of a scroll fetch: `_scroll_id` and the `hits.hits` payload
(already projected to `_source`, the only part the loop reads). -/
structure ScrollBatch (α : Type) where
  scrollId : String
  hits : List α
deriving DecidableEq, Repr

/-- Engine calls `scrollQuery` makes, in order: the initial `search` (with
scroll parameters), each `scroll(scroll_id)` continuation, and
`clearScroll(scroll_id)`. -/
inductive ESScrollCall
  | search
  | scroll (scrollId : String)
  | clearScroll (scrollId : String)
deriving DecidableEq, Repr

/-- Whether a call is the cursor release. -/
def ESScrollCall.isClearScroll : ESScrollCall → Bool
  | .clearScroll _ => true
  | _ => false

/-- The engine call a loop iteration makes: the initial `search` when no
`scrollID` has been seen yet (`typeof scrollID === 'undefined'`), a
`scroll(scrollID)` continuation afterwards. -/
def scrollCallOf (prevId : Option String) : ESScrollCall :=
  match prevId with
  | none => ESScrollCall.search
  | some i => ESScrollCall.scroll i

/-- The `while (!currentBatch || batchSize > 0)` loop of `ES.scrollQuery`.
`eng k` is the result of the `(k+1)`-th fetch — `eng 0` the initial search,
later ones the `scroll` continuations (the recursive call shifts the
stream).  Each iteration fetches a batch, appends its hits to `totalData`,
and continues iff the batch was non-empty; a rejected fetch propagates as a
thrown error.  `fuel` bounds the iterations so the loop is a total function;
`none` means the bound was hit (a modelling artifact, never reached in the
theorems below).  On success the result carries `totalData` and the last
`_scroll_id`; the second component is the fetch-call trace. -/
def scrollLoop {α : Type} (eng : Nat → Except String (ScrollBatch α)) :
    Nat → List α → Option String →
    Option (Except GuppyError (List α × String) × List ESScrollCall)
  | 0, _, _ => none
  | fuel + 1, acc, prevId =>
    match eng 0 with
    | .error msg => some (.error (.jsError msg), [scrollCallOf prevId])
    | .ok b =>
      if b.hits.length > 0 then
        match scrollLoop (fun j => eng (j + 1)) fuel (acc ++ b.hits) (some b.scrollId) with
        | none => none
        | some (r, tr) => some (r, scrollCallOf prevId :: tr)
      else
        some (.ok (acc ++ b.hits, b.scrollId), [scrollCallOf prevId])

/-- The message of the invalid-fields `CodedError` in `ES.scrollQuery`:
`Invalid fields: "${fieldsNotBelong.join('", "')}"`. -/
def invalidFieldsMsg (fieldsNotBelong : List String) : String :=
  "Invalid fields: \"" ++ String.intercalate "\", \"" fieldsNotBelong ++ "\""

/-- `ES.scrollQuery`: validates `esIndex`/`esType` (JavaScript falsiness of a
string is emptiness here), validates the requested `fields` against the
index fields (`_.difference` keeps, in order, every requested field not
among the known ones), then runs the scroll loop; after a normal loop exit
it issues exactly one `clearScroll` with the last `_scroll_id`.  When
`getESFields` yields `undefined` for `esIndex`, reading `.fields` on it
throws a `TypeError` in JavaScript, modelled as a thrown error.  The second
component is the engine-call trace.  The translated `filter`, the requested
`fields` and the `field:direction` sort tokens are sent with the initial
search and determine which documents the cursor serves; they influence
nothing else in the function, so they are absorbed into the batch stream
`eng` of the oracle. -/
def ES.scrollQuery {α : Type} (eng : Nat → Except String (ScrollBatch α))
    (fuel : Nat) (st : ESState) (esIndex esType : String) (fields : List String) :
    Option (Except GuppyError (List α) × List ESScrollCall) :=
  if esIndex = "" ∨ esType = "" then
    some (.error (.codedError 400 "Invalid es index or es type name"), [])
  else
    match ES.getESFields st esIndex with
    | none =>
      some (.error (.jsError "TypeError: Cannot read property of undefined"), [])
    | some info =>
      let fieldsNotBelong := fields.filter (fun f => ! info.fields.contains f)
      if fieldsNotBelong.length > 0 then
        some (.error (.codedError 400 (invalidFieldsMsg fieldsNotBelong)), [])
      else
        match scrollLoop eng fuel [] none with
        | none => none
        | some (.error e, tr) => some (.error e, tr)
        | some (.ok (totalData, lastId), tr) =>
          some (.ok totalData, tr ++ [ESScrollCall.clearScroll lastId])

/-- An engine that serves, at the `(k+1)`-th fetch, the `k`-th element of a
fixed list of batches, and empty batches once the list is exhausted — the
behaviour of a scroll cursor over a result set partitioned into `batches`.
`ids` gives the `_scroll_id` returned with each fetch. -/
def batchEngine {α : Type} (batches : List (List α)) (ids : Nat → String) :
    Nat → Except String (ScrollBatch α) :=
  fun k => .ok ⟨ids k, batches.getD k []⟩

/-- A resolver installed by the tier-access middleware, identified by the
constructor call that produced it: `tierAccessResolver({ isRawDataQuery?,
esType, esIndex })` (an absent `isRawDataQuery` is `undefined`, falsy, so it
is `false` here) or `hideNumberResolver(isGettingTotalCount, accessibility)`
with its two boolean arguments. -/
inductive Resolver
  | tierAccess (isRawDataQuery : Bool) (esType : String) (esIndex : String)
  | hideNumber (a : Bool) (b : Bool)
deriving DecidableEq, Repr

/-- Modelled from the spec: `firstLetterUpperCase` from
`src/server/utils/utils.js` (not part of the embedded core) — upper-cases
the first letter of a string, used to derive the `...Aggregation` response
type name from an es type name. -/
def firstLetterUpperCase (s : String) : String :=
  match s.data with
  | [] => ""
  | c :: rest => String.mk (c.toUpper :: rest)

/-- The middleware object built at module load: `Query` and `Aggregation`
carry one resolver per configured es type; per configured type there is a
top-level `<Type>Aggregation` entry whose `_totalCount` resolver hides small
totals; `HistogramForNumber.histogram` and `HistogramForString.histogram`
hide small bucket counts.  Association lists model the spread objects. -/
structure TierAccessMiddleware where
  queryMapping : List (String × Resolver)
  aggsMapping : List (String × Resolver)
  totalCountMapping : List (String × Resolver)
  histogramForNumberHistogram : Resolver
  histogramForStringHistogram : Resolver
deriving DecidableEq, Repr

/-- `tierAccessMiddleware` as built once from `config.esConfig.indices` by
the module body of `tierAccessMiddleware/index.js`: a pure value of the
configuration, computed a single time at load (not per request). -/
def tierAccessMiddleware (indices : List IndexConfig) : TierAccessMiddleware :=
  { queryMapping := indices.map (fun it =>
      (it.type, Resolver.tierAccess true it.type it.index))
    aggsMapping := indices.map (fun it =>
      (it.type, Resolver.tierAccess false it.type it.index))
    totalCountMapping := indices.map (fun it =>
      (firstLetterUpperCase it.type ++ "Aggregation", Resolver.hideNumber true true))
    histogramForNumberHistogram := Resolver.hideNumber false true
    histogramForStringHistogram := Resolver.hideNumber false true }

/-- A concrete post-`initialize` state used by witnesses and
counterexamples: two configured indices, field mappings for both, and array
fields registered only for the first. -/
def demoState : ESState :=
  { indices := [⟨"subject_index", "subject"⟩, ⟨"file_index", "file"⟩]
    fieldTypes := [("subject_index", [("gender", "keyword"), ("age", "integer")]),
                   ("file_index", [("file_name", "keyword")])]
    arrayFields := [("subject_index", ["visits"])] }

/-- A scroll engine whose initial search succeeds with one document but
whose first `scroll` continuation rejects with a transport error. -/
def failingScrollEngine : Nat → Except String (ScrollBatch Nat) :=
  fun k => if k = 0 then .ok ⟨"s0", [7]⟩ else .error "connection reset"

/-! ## Theorems -/

/-- C1: every `getData` request whose `offset + size` exceeds the page-size
ceiling fails with a `UserInputError` directing the caller to the download
endpoint, and the list of queries dispatched to the engine is empty — no
search call is ever issued for that request. -/
theorem getData_pageSize_guard {Filter SortSpec φ σ α : Type}
    (engine : ESQueryBody φ σ → Except String (SearchResp α))
    (gfo : String → String → Filter → φ) (gsb : Option SortSpec → String → Option σ)
    (pageSize : Int) (esIndex esType : String) (fields : List String)
    (filter : Option Filter) (sort : Option SortSpec) (o s : Int)
    (h : o + s > pageSize) :
    ES.getData engine gfo gsb pageSize esIndex esType fields filter sort (some o) (some s) =
      (.error (.userInputError (largeQueryMsg pageSize o s)), []) := by
  simp [ES.getData, exceedsPageSize, h]

/-- C1 witness: a concrete oversized request (`offset = 9000`, `size = 2000`,
ceiling `10000`) is rejected without any engine call. -/
theorem getData_pageSize_guard_witness :
    ((9000 : Int) + 2000 > 10000) ∧
    ES.getData
        (fun (_ : ESQueryBody Unit Unit) =>
          (Except.ok ⟨⟨0, []⟩⟩ : Except String (SearchResp Nat)))
        (fun _ _ (_ : Unit) => ()) (fun (_ : Option Unit) _ => (none : Option Unit))
        10000 "subject_index" "subject" [] none none (some 9000) (some 2000) =
      (.error (.userInputError (largeQueryMsg 10000 9000 2000)), []) :=
  ⟨by decide,
    getData_pageSize_guard
      (fun (_ : ESQueryBody Unit Unit) => (Except.ok ⟨⟨0, []⟩⟩ : Except String (SearchResp Nat)))
      (fun _ _ (_ : Unit) => ()) (fun (_ : Option Unit) _ => (none : Option Unit))
      10000 "subject_index" "subject" [] none none 9000 2000 (by decide)⟩

/-- C10: when `size` is `undefined`, the page-size guard never fires — the
conjunction `typeof size !== 'undefined' && ...` is short-circuited — so the
query is dispatched to the engine (exactly one search call) no matter how
large `offset` is. -/
theorem getData_undefined_size_dispatches {Filter SortSpec φ σ α : Type}
    (engine : ESQueryBody φ σ → Except String (SearchResp α))
    (gfo : String → String → Filter → φ) (gsb : Option SortSpec → String → Option σ)
    (pageSize : Int) (esIndex esType : String) (fields : List String)
    (filter : Option Filter) (sort : Option SortSpec) (offset : Option Int) :
    exceedsPageSize pageSize offset none = false ∧
    ES.getData engine gfo gsb pageSize esIndex esType fields filter sort offset none =
      ((ES.query engine
          (buildFilterDataBody gfo gsb esIndex esType filter fields sort offset none)).map
            (fun resp => resp.hits.hits.map (·.source)),
        [buildFilterDataBody gfo gsb esIndex esType filter fields sort offset none]) := by
  refine ⟨rfl, ?_⟩
  simp [ES.getData, exceedsPageSize, ES.filterData]

/-- C8: `getCount` is `filterData` with an empty `fields` list — the single
dispatched body carries no `_source` (zero requested fields) and no `size` —
and it returns `hits.total` of the engine response. -/
theorem getCount_reads_total {Filter SortSpec φ σ α : Type}
    (engine : ESQueryBody φ σ → Except String (SearchResp α))
    (gfo : String → String → Filter → φ) (gsb : Option SortSpec → String → Option σ)
    (esIndex esType : String) (filter : Option Filter) (resp : SearchResp α)
    (h : engine (buildFilterDataBody gfo gsb esIndex esType filter [] none none none) =
      .ok resp) :
    ES.getCount engine gfo gsb esIndex esType filter =
      (.ok resp.hits.total,
        [buildFilterDataBody gfo gsb esIndex esType filter [] none none none]) ∧
    (buildFilterDataBody gfo gsb esIndex esType filter [] none none none).source = none ∧
    (buildFilterDataBody gfo gsb esIndex esType filter [] none none none).size = none := by
  refine ⟨?_, rfl, rfl⟩
  simp [ES.getCount, ES.filterData, ES.query, h, Except.map]

/-- C8 witness: with an engine answering `hits.total = 42`, `getCount`
returns `42` after one zero-field query. -/
theorem getCount_reads_total_witness :
    ((fun (_ : ESQueryBody Unit Unit) =>
          (Except.ok ⟨⟨42, []⟩⟩ : Except String (SearchResp Nat)))
        (buildFilterDataBody (fun _ _ (_ : Unit) => ())
          (fun (_ : Option Unit) _ => (none : Option Unit))
          "subject_index" "subject" none [] none none none) =
      .ok (⟨⟨42, []⟩⟩ : SearchResp Nat)) ∧
    ES.getCount
        (fun (_ : ESQueryBody Unit Unit) =>
          (Except.ok ⟨⟨42, []⟩⟩ : Except String (SearchResp Nat)))
        (fun _ _ (_ : Unit) => ()) (fun (_ : Option Unit) _ => (none : Option Unit))
        "subject_index" "subject" none =
      (.ok 42,
        [buildFilterDataBody (fun _ _ (_ : Unit) => ())
          (fun (_ : Option Unit) _ => (none : Option Unit))
          "subject_index" "subject" none [] none none none]) :=
  ⟨rfl,
    (getCount_reads_total
      (fun (_ : ESQueryBody Unit Unit) =>
        (Except.ok ⟨⟨42, []⟩⟩ : Except String (SearchResp Nat)))
      (fun _ _ (_ : Unit) => ()) (fun (_ : Option Unit) _ => (none : Option Unit))
      "subject_index" "subject" none ⟨⟨42, []⟩⟩ rfl).1⟩

/-- C4 (code bug): initialization with an *empty* `config.indices` list does
not fail — the JavaScript guard `!this.config.indices ||
this.config.indices === 0` is false for an empty array, so
`_getMappingsForAllIndices` resolves with an empty mapping — whereas a
*missing* `config.indices` does throw the fatal initialization error the
claim (and the message text itself) describes. -/
theorem getMappings_emptyIndices_behaviour :
    (∀ fetch : String → String → Except String (List (String × String)),
      ES.getMappingsForAllIndices fetch (some []) = .ok []) ∧
    (∀ fetch : String → String → Except String (List (String × String)),
      ES.getMappingsForAllIndices fetch none =
        .error (.jsError
          "[ES.initialize] Error when initializing: empty \"config.indices\" block")) :=
  ⟨fun _ => rfl, fun _ => rfl⟩

/-- C6 counterexample: for an index with no registered array fields
(`file_index` in `demoState`), `isArrayField` evaluates
`undefined && undefined.includes(field)`, which is `undefined` — not the
boolean `false` (nor `true`) the claim promises. -/
theorem isArrayField_undef_counterexample :
    ES.isArrayField demoState "file_index" "file_name" = JsBoolOrUndef.undef ∧
    JsBoolOrUndef.undef ≠ JsBoolOrUndef.bool false ∧
    JsBoolOrUndef.undef ≠ JsBoolOrUndef.bool true := by
  refine ⟨by decide, by decide, by decide⟩

/-- C6 amended: `isArrayField(index, field)` returns the boolean membership
test when the index has registered array fields and `undefined` (a
non-boolean, falsy value) when it has none; in every case the result is
truthy exactly when the field is explicitly registered as an array field of
that index — so, used as a condition, it is false for any unregistered
field. -/
theorem isArrayField_truthy_iff_registered (st : ESState) (esIndex field : String) :
    (ES.isArrayField st esIndex field).truthy = true ↔
      ∃ fs, alookup st.arrayFields esIndex = some fs ∧ field ∈ fs := by
  unfold ES.isArrayField
  cases h : alookup st.arrayFields esIndex with
  | none => simp [JsBoolOrUndef.truthy]
  | some fs => simp [JsBoolOrUndef.truthy, List.contains]

/-- C7 counterexample: `getESFields` on an index name absent from the
configuration returns `res[esIndex]`, i.e. `undefined` — the call returns
normally instead of failing with an `InvalidInput` error (the function has
no throwing path at all). -/
theorem getESFields_unknown_counterexample :
    ES.getESFields demoState "unknown_index" = none := by decide

/-- C7 amended: calling `getESFields` with an index name that is not among
the configured indices returns `undefined` (`none`); no `InvalidInput`
error naming the index is raised. -/
theorem getESFields_unknown_returns_undefined (st : ESState) (esIndex : String)
    (h : ∀ cfg ∈ st.indices, cfg.index ≠ esIndex) :
    ES.getESFields st esIndex = none := by
  unfold ES.getESFields
  generalize st.indices = l at h ⊢
  induction l with
  | nil => rfl
  | cons cfg rest ih =>
    have hne : cfg.index ≠ esIndex := h cfg (List.mem_cons_self _ _)
    simpa [alookup, hne] using ih (fun c hc => h c (List.mem_cons_of_mem _ hc))

/-- C7 witness for the amended claim, at `demoState` and `unknown_index`. -/
theorem getESFields_unknown_returns_undefined_witness :
    (∀ cfg ∈ demoState.indices, cfg.index ≠ "unknown_index") ∧
    ES.getESFields demoState "unknown_index" = none :=
  ⟨by decide, getESFields_unknown_returns_undefined demoState "unknown_index" (by decide)⟩

/-- C5: a `scrollQuery` whose `fields` list contains unknown fields fails
with `CodedError 400` whose message names, in one string, every requested
field that is not among the known fields of the index (in request order),
and the engine-call trace is empty — no search, scroll or clearScroll call
is issued. -/
theorem scrollQuery_invalid_fields {α : Type} (eng : Nat → Except String (ScrollBatch α))
    (fuel : Nat) (st : ESState) (esIndex esType : String) (fields : List String)
    (info : ESFieldsInfo)
    (h1 : esIndex ≠ "") (h2 : esType ≠ "")
    (h3 : ES.getESFields st esIndex = some info)
    (h4 : (fields.filter (fun f => ! info.fields.contains f)).length > 0) :
    ES.scrollQuery eng fuel st esIndex esType fields =
      some (.error (.codedError 400
        (invalidFieldsMsg (fields.filter (fun f => ! info.fields.contains f)))), []) := by
  have hcond : ¬ (esIndex = "" ∨ esType = "") := by
    rintro (hx | hx)
    · exact h1 hx
    · exact h2 hx
  unfold ES.scrollQuery
  rw [if_neg hcond, h3]
  dsimp only
  rw [if_pos h4]

/-- C5 witness: requesting `["bad_one", "gender", "bad_two"]` on
`subject_index` (known fields `gender`, `age`) fails before any engine call
with a message naming both `bad_one` and `bad_two`. -/
theorem scrollQuery_invalid_fields_witness :
    ES.scrollQuery (batchEngine ([] : List (List Nat)) (fun _ => "s")) 5 demoState
        "subject_index" "subject" ["bad_one", "gender", "bad_two"] =
      some (.error (.codedError 400 "Invalid fields: \"bad_one\", \"bad_two\""), []) := by
  have h := scrollQuery_invalid_fields (batchEngine ([] : List (List Nat)) (fun _ => "s"))
    5 demoState "subject_index" "subject" ["bad_one", "gender", "bad_two"]
    ⟨"subject_index", "subject", ["gender", "age"]⟩
    (by decide) (by decide) (by decide) (by decide)
  simpa [invalidFieldsMsg] using h

/-- The scroll loop over a `batchEngine` serving non-empty batches
`batches` and then an empty one: it performs exactly
`batches.length + 1` fetches (one `search`, then one `scroll` per non-empty
batch), accumulates the batches in order, and stops at the first empty
batch, reporting the last `_scroll_id`. -/
theorem scrollLoop_batchEngine {α : Type} :
    ∀ (batches : List (List α)) (ids : Nat → String) (acc : List α)
      (prevId : Option String),
      (∀ b ∈ batches, b ≠ []) →
      scrollLoop (batchEngine batches ids) (batches.length + 1) acc prevId =
        some (.ok (acc ++ batches.flatten, ids batches.length),
          scrollCallOf prevId ::
            (List.range batches.length).map (fun k => ESScrollCall.scroll (ids k)))
  | [], ids, acc, prevId, _ => by
    simp [scrollLoop, batchEngine]
  | b :: rest, ids, acc, prevId, h => by
    have hb : b ≠ [] := h b (by simp)
    have hlen : 0 < b.length := List.length_pos.mpr hb
    have hEng : (fun j => batchEngine (b :: rest) ids (j + 1)) =
        batchEngine rest (fun j => ids (j + 1)) := rfl
    have ih := scrollLoop_batchEngine rest (fun j => ids (j + 1)) (acc ++ b) (some (ids 0))
      (fun x hx => h x (by simp [hx]))
    have hEng0 : batchEngine (b :: rest) ids 0 = .ok ⟨ids 0, b⟩ := rfl
    simp only [List.length_cons]
    rw [scrollLoop, hEng0]
    dsimp only
    rw [if_pos hlen, hEng, ih]
    simp [scrollCallOf, List.range_succ_eq_map, Function.comp]

/-- C2: a `scrollQuery` over a result set served as the non-empty batches
`batches` followed by an empty batch returns exactly the concatenation of
all batches in engine order (all `N` documents, no duplicates, no gaps),
performs `batches.length + 1` fetches — stopping at the first empty batch —
and then releases the scroll cursor exactly once, as the final engine
call. -/
theorem scrollQuery_downloads_all {α : Type} (batches : List (List α)) (ids : Nat → String)
    (st : ESState) (esIndex esType : String) (fields : List String) (info : ESFieldsInfo)
    (h1 : esIndex ≠ "") (h2 : esType ≠ "")
    (h3 : ES.getESFields st esIndex = some info)
    (h4 : ∀ f ∈ fields, info.fields.contains f)
    (h5 : ∀ b ∈ batches, b ≠ []) :
    ES.scrollQuery (batchEngine batches ids) (batches.length + 1) st esIndex esType fields =
      some (.ok batches.flatten,
        (ESScrollCall.search ::
          (List.range batches.length).map (fun k => ESScrollCall.scroll (ids k))) ++
        [ESScrollCall.clearScroll (ids batches.length)]) ∧
    ((ESScrollCall.search ::
        (List.range batches.length).map (fun k => ESScrollCall.scroll (ids k))) ++
      [ESScrollCall.clearScroll (ids batches.length)]).countP ESScrollCall.isClearScroll = 1 ∧
    batches.flatten.length = (batches.map List.length).sum := by
  have hcond : ¬ (esIndex = "" ∨ esType = "") := by
    rintro (hx | hx)
    · exact h1 hx
    · exact h2 hx
  have hfilter : fields.filter (fun f => ! info.fields.contains f) = [] := by
    rw [List.filter_eq_nil_iff]
    intro a ha
    simpa using h4 a ha
  refine ⟨?_, ?_, ?_⟩
  · unfold ES.scrollQuery
    rw [if_neg hcond, h3]
    dsimp only
    rw [hfilter]
    rw [if_neg (by simp)]
    rw [scrollLoop_batchEngine batches ids [] none h5]
    simp [scrollCallOf]
  · simp [List.countP_append, List.countP_cons, List.countP_map, Function.comp,
      ESScrollCall.isClearScroll]
  · simp [List.length_flatten]

/-- C2 witness: two non-empty batches `[1,2]` and `[3]` followed by an empty
batch yield `[1,2,3]` with trace search, scroll, scroll, clearScroll. -/
theorem scrollQuery_downloads_all_witness :
    ES.scrollQuery (batchEngine [[1, 2], [3]] (fun _ => "s")) 3 demoState
        "subject_index" "subject" ["gender"] =
      some (.ok ([1, 2, 3] : List Nat),
        [ESScrollCall.search, ESScrollCall.scroll "s", ESScrollCall.scroll "s",
          ESScrollCall.clearScroll "s"]) := by
  have h := (scrollQuery_downloads_all [[1, 2], [3]] (fun _ => "s") demoState
    "subject_index" "subject" ["gender"] ⟨"subject_index", "subject", ["gender", "age"]⟩
    (by decide) (by decide) (by decide) (by decide) (by decide)).1
  exact h.trans rfl

/-- C3 (code bug): when a batch fetch fails after the cursor was opened —
here the first `scroll` continuation rejects — `scrollQuery` propagates the
error and returns with trace `[search, scroll]`: `clearScroll` is never
called on this exit path, so the cursor is not released. -/
theorem scrollQuery_error_skips_clearScroll :
    ES.scrollQuery failingScrollEngine 5 demoState "subject_index" "subject" ["gender"] =
      some (.error (.jsError "connection reset"),
        [ESScrollCall.search, ESScrollCall.scroll "s0"]) ∧
    [ESScrollCall.search, ESScrollCall.scroll "s0"].countP ESScrollCall.isClearScroll = 0 :=
  ⟨rfl, rfl⟩

/-- Association-list lookup over a mapped list with nodup keys finds the
image of a member. -/
theorem alookup_map_of_nodup {β : Type} (f : IndexConfig → String) (g : IndexConfig → β) :
    ∀ (l : List IndexConfig) (it : IndexConfig), it ∈ l → (l.map f).Nodup →
      alookup (l.map (fun x => (f x, g x))) (f it) = some (g it)
  | [], it, hmem, _ => absurd hmem (List.not_mem_nil it)
  | x :: rest, it, hmem, hnd => by
    have hnd' : f x ∉ rest.map f ∧ (rest.map f).Nodup := by
      simpa [List.nodup_cons] using hnd
    rcases List.mem_cons.mp hmem with hx | hx
    · subst hx
      simp [alookup]
    · have hne : f x ≠ f it := fun hEq => hnd'.1 (hEq ▸ List.mem_map_of_mem f hx)
      simp only [List.map_cons, alookup, if_neg hne]
      exact alookup_map_of_nodup f g rest it hx hnd'.2

/-- C9: the middleware built once from the configured indices maps, for
every configured descriptor, `Query[type]` to the raw-data tier-access
resolver for that index/type, `Aggregation[type]` to the aggregation
tier-access resolver, the upper-cased `<Type>Aggregation` key to the
`_totalCount` hiding resolver, and installs count-hiding resolvers on
`HistogramForNumber.histogram` and `HistogramForString.histogram`; the
middleware is a pure value of the configuration — nothing in it depends on
a request. -/
theorem tierAccessMiddleware_construction (indices : List IndexConfig) (it : IndexConfig)
    (hmem : it ∈ indices)
    (hty : (indices.map (fun x => x.type)).Nodup)
    (hagg : (indices.map (fun x => firstLetterUpperCase x.type ++ "Aggregation")).Nodup) :
    alookup (tierAccessMiddleware indices).queryMapping it.type =
      some (Resolver.tierAccess true it.type it.index) ∧
    alookup (tierAccessMiddleware indices).aggsMapping it.type =
      some (Resolver.tierAccess false it.type it.index) ∧
    alookup (tierAccessMiddleware indices).totalCountMapping
        (firstLetterUpperCase it.type ++ "Aggregation") =
      some (Resolver.hideNumber true true) ∧
    (tierAccessMiddleware indices).histogramForNumberHistogram =
      Resolver.hideNumber false true ∧
    (tierAccessMiddleware indices).histogramForStringHistogram =
      Resolver.hideNumber false true := by
  refine ⟨?_, ?_, ?_, rfl, rfl⟩
  · exact alookup_map_of_nodup (fun x => x.type)
      (fun x => Resolver.tierAccess true x.type x.index) indices it hmem hty
  · exact alookup_map_of_nodup (fun x => x.type)
      (fun x => Resolver.tierAccess false x.type x.index) indices it hmem hty
  · exact alookup_map_of_nodup (fun x => firstLetterUpperCase x.type ++ "Aggregation")
      (fun _ => Resolver.hideNumber true true) indices it hmem hagg

/-- C9 witness: at the two-index demo configuration, the `file` descriptor
gets its raw-data, aggregation, `FileAggregation._totalCount` and histogram
resolvers. -/
theorem tierAccessMiddleware_construction_witness :
    alookup (tierAccessMiddleware demoState.indices).queryMapping "file" =
      some (Resolver.tierAccess true "file" "file_index") ∧
    alookup (tierAccessMiddleware demoState.indices).aggsMapping "file" =
      some (Resolver.tierAccess false "file" "file_index") ∧
    alookup (tierAccessMiddleware demoState.indices).totalCountMapping
        (firstLetterUpperCase "file" ++ "Aggregation") =
      some (Resolver.hideNumber true true) ∧
    (tierAccessMiddleware demoState.indices).histogramForNumberHistogram =
      Resolver.hideNumber false true ∧
    (tierAccessMiddleware demoState.indices).histogramForStringHistogram =
      Resolver.hideNumber false true :=
  tierAccessMiddleware_construction demoState.indices ⟨"file_index", "file"⟩
    (by decide) (by decide) (by decide)
